import Mathlib

/-!
# Verification development for `verify_models.py`

Shallow embedding of the checkpoint-verification script `src/verify_models.py`.

The script checks, for each entry of a fixed catalog, that a serialized
model file exists, loads with `torch.load`, and deserializes to a state
dictionary (a Python `dict`); it prints diagnostics and returns a boolean
verdict per file, and finally aggregates the per-file booleans into a
summary (lines 89-106 of the source).

Embedding choices:
* The file system is a map from paths to an optional `FileState`
  (`none` = the path does not exist, mirroring `os.path.exists`).
* `torch.load` is modelled by the `load` field of `FileState`: an
  `Except String TorchValue` — `Except.error msg` is the exception the
  Python call raises for corrupt/truncated/foreign files, with `msg` the
  exception text `str(e)`; `Except.ok v` is the deserialized value, which
  is either a mapping (`TorchValue.dict keys`, keeping only the keys the
  script inspects) or anything else (`TorchValue.nonDict`, e.g. a raw
  tensor or a list — the script only tests `isinstance(checkpoint, dict)`).
* File size: the source computes `os.path.getsize(filepath) / (1024*1024)`;
  we model the byte count as a natural and the megabyte size as a rational.
* The script communicates through prints and a returned boolean.  The
  embedding collects the printed information into a `VerificationResult`
  record: each field corresponds to one print (or its absence) in the
  source, and `valid` is the boolean the function returns.
-/

namespace SiteLenz

/-- Deserialized value produced by a successful `torch.load`: either a
mapping (state dictionary; we keep just its key list, in iteration order,
which is all the script reads) or any non-mapping value. -/
inductive TorchValue where
  | dict (keys : List String)
  | nonDict
  deriving DecidableEq, Repr

/-- State of an existing file: its size in bytes (`os.path.getsize`) and
the outcome of attempting `torch.load` on it. -/
structure FileState where
  sizeBytes : Nat
  load : Except String TorchValue

/-- The file system: `none` at a path means `os.path.exists` is false. -/
def FileSystem : Type := String → Option FileState

/-- `file_size_mb = os.path.getsize(filepath) / (1024 * 1024)` (line 22). -/
def file_size_mb (f : FileState) : ℚ := (f.sizeBytes : ℚ) / (1024 * 1024)

/-- The two size-related messages the script can print for a loadable
state dictionary (lines 42-54): `appropriate` for
"File size appropriate for ..." and `unusual` for the warning
"File size unusual for ...". -/
inductive SizeMsg where
  | appropriate
  | unusual
  deriving DecidableEq, Repr

/-- The if/elif chain of lines 43-54 of the source: which size message is
printed for a given model name and file size in MB.  All five comparisons
are strict, VGG16 has no upper bound, and every other case — including a
model name with no configured range — falls through to `unusual`. -/
def sizeClassification (model_name : String) (fsize : ℚ) : SizeMsg :=
  if model_name = "VGG16" ∧ fsize > 400 then .appropriate
  else if model_name = "ResNet18" ∧ 40 < fsize ∧ fsize < 60 then .appropriate
  else if model_name = "MobileNetV2" ∧ 10 < fsize ∧ fsize < 20 then .appropriate
  else if model_name = "AlexNet" ∧ 200 < fsize ∧ fsize < 250 then .appropriate
  else if model_name = "ViT" ∧ 300 < fsize ∧ fsize < 400 then .appropriate
  else .unusual

/-- Observable outcome of one `verify_model_file` call.  Each field
records one print of the source (or its absence) plus the returned
boolean `valid`:
* `file_exists` — whether the "File not found" branch (line 18) was avoided;
* `size_mb` — the printed size (line 24), absent when the file is missing;
* `loadable` — whether "File is loadable" (line 29) was printed;
* `parameter_count` — the printed number of layers (line 34);
* `sample_parameter_names` — the printed first five layer names (lines 37-40);
* `size_msg` — which size message of lines 43-54 was printed;
* `diagnostic` — the error/warning text of lines 18, 58 or 62;
* `valid` — the boolean returned (lines 19, 56, 59, 63). -/
structure VerificationResult where
  file_exists : Bool
  size_mb : Option ℚ
  loadable : Bool
  parameter_count : Option Nat
  sample_parameter_names : Option (List String)
  size_msg : Option SizeMsg
  diagnostic : Option String
  valid : Bool
  deriving DecidableEq, Repr

/-- Result of the early return at lines 17-19: the path does not exist. -/
def missingResult (filepath : String) : VerificationResult :=
  { file_exists := false, size_mb := none, loadable := false,
    parameter_count := none, sample_parameter_names := none,
    size_msg := none, diagnostic := some ("File not found: " ++ filepath),
    valid := false }

/-- Result built by the `except` handler at lines 61-63: `torch.load`
raised, the message is captured and `False` is returned. -/
def loadErrorResult (fsize : ℚ) (e : String) : VerificationResult :=
  { file_exists := true, size_mb := some fsize, loadable := false,
    parameter_count := none, sample_parameter_names := none,
    size_msg := none, diagnostic := some ("Error loading file: " ++ e),
    valid := false }

/-- Body of the `try` block, lines 27-59: the `torch.load` attempt and the
state-dictionary inspection.  An `Except.error` is the exception escaping
the block (to be caught by the handler); `Except.ok` is a normal return. -/
def try_block (model_name : String) (fsize : ℚ)
    (ld : Except String TorchValue) : Except String VerificationResult :=
  match ld with
  | .error e => .error e
  | .ok (.dict keys) =>
      .ok { file_exists := true, size_mb := some fsize, loadable := true,
            parameter_count := some keys.length,
            sample_parameter_names := some (keys.take 5),
            size_msg := some (sizeClassification model_name fsize),
            diagnostic := none, valid := true }
  | .ok .nonDict =>
      .ok { file_exists := true, size_mb := some fsize, loadable := true,
            parameter_count := none, sample_parameter_names := none,
            size_msg := none,
            diagnostic := some "Checkpoint is not a state dictionary",
            valid := false }

/-- `verify_model_file` (lines 10-63): existence check, size measurement,
`try` block, and the `except Exception` handler that converts a load
failure into a `False` verdict. -/
def verify_model_file (fs : FileSystem) (filepath model_name : String) :
    VerificationResult :=
  match fs filepath with
  | none => missingResult filepath
  | some f =>
      match try_block model_name (file_size_mb f) f.load with
      | .ok r => r
      | .error e => loadErrorResult (file_size_mb f) e

/-- The same function at the exception level: an uncaught exception in the
body would surface as `Except.error`.  The `except Exception` clause of
line 61 catches everything the `try` block can raise, so the only
fallible operation (`torch.load`, a `.error` of `try_block`) is handled
and converted into `loadErrorResult`. -/
def verify_model_file_exc (fs : FileSystem) (filepath model_name : String) :
    Except String VerificationResult :=
  match fs filepath with
  | none => .ok (missingResult filepath)
  | some f =>
      match try_block model_name (file_size_mb f) f.load with
      | .ok r => .ok r
      | .error e => .ok (loadErrorResult (file_size_mb f) e)

/-! ## Report aggregation (`main`, lines 89-106)

`results` is the sequence of per-file boolean verdicts
(`results.values()` in insertion order). -/

/-- `valid_count = sum(results.values())` (line 89). -/
def valid_count (results : List Bool) : Nat :=
  results.countP (fun b => b)

/-- `total_count = len(results)` (line 90). -/
def total_count (results : List Bool) : Nat :=
  results.length

/-- The three-way overall readiness outcome printed by lines 98-106. -/
inductive Readiness where
  | ALL_READY
  | PARTIAL
  | NONE_READY
  deriving DecidableEq, Repr

/-- The classification of lines 98-106:
`if valid_count == total_count` → all ready, `elif valid_count > 0` →
partial, `else` → none ready. -/
def readiness (results : List Bool) : Readiness :=
  if valid_count results = total_count results then .ALL_READY
  else if 0 < valid_count results then .PARTIAL
  else .NONE_READY

/-! ## Concrete file systems used to instantiate the theorems below -/

/-- A file system where every path is missing. -/
def fsMissing : FileSystem := fun _ => none

/-- A file system where every path holds a 47 MB loadable state dictionary. -/
def fsOkDict : FileSystem := fun _ =>
  some { sizeBytes := 47 * 1024 * 1024,
         load := Except.ok (TorchValue.dict ["conv1.weight", "conv1.bias"]) }

/-- A file system where every path holds a 5 MB loadable state dictionary
(out of range for every configured label). -/
def fsSmallDict : FileSystem := fun _ =>
  some { sizeBytes := 5 * 1024 * 1024,
         load := Except.ok (TorchValue.dict ["features.0.weight"]) }

/-- A file system where every path holds a corrupt file: `torch.load`
raises with message "invalid load key". -/
def fsCorrupt : FileSystem := fun _ =>
  some { sizeBytes := 12345, load := Except.error "invalid load key" }

/-- A file system where every path holds a file that deserializes to a
single non-mapping value (e.g. a raw tensor). -/
def fsTensor : FileSystem := fun _ =>
  some { sizeBytes := 1024, load := Except.ok TorchValue.nonDict }

/-! ## Claims -/

/-- C1 (counterexample): the classification of lines 98-106 applied to an
empty result sequence.  `valid_count = total_count = 0`, so the first
branch fires and the outcome is ALL_READY ("All models are ready to
use!"), even though `total_count = 0` — contradicting the claim that an
empty sequence must not be classified ALL_READY. -/
theorem readiness_empty_counterexample :
    readiness [] = Readiness.ALL_READY ∧ total_count [] = 0 := by
  decide

/-- C1 (amended): the code classifies the outcome as ALL_READY exactly
when `valid_count = total_count`, with no `total_count > 0` guard; in
particular the empty sequence is (vacuously) classified ALL_READY. -/
theorem readiness_all_ready_iff (results : List Bool) :
    readiness results = Readiness.ALL_READY ↔
      valid_count results = total_count results := by
  unfold readiness
  by_cases hc : valid_count results = total_count results
  · simp [hc]
  · rw [if_neg hc]
    constructor
    · intro h
      exact absurd h (by split <;> decide)
    · intro h
      exact absurd h hc

/-- C2: `verify_model_file` never lets an exception escape: viewed at the
exception level, the call always produces `Except.ok` of the ordinary
result, for every file system, path and model name — the modelled
`torch.load` failure (`try_block` returning `.error`) is caught by the
handler of lines 61-63 and degraded to a `valid = false` result. -/
theorem verify_model_file_no_exception (fs : FileSystem)
    (filepath model_name : String) :
    verify_model_file_exc fs filepath model_name =
      Except.ok (verify_model_file fs filepath model_name) := by
  unfold verify_model_file verify_model_file_exc
  cases hfs : fs filepath with
  | none => rfl
  | some f =>
      cases htb : try_block model_name (file_size_mb f) f.load with
      | ok r => simp [htb]
      | error e => simp [htb]

/-- C3: the boolean verdict of `verify_model_file` is `true` iff the file
exists, `torch.load` succeeds, and the deserialized value is a mapping;
consequently `valid = true` implies `file_exists = true` and
`loadable = true`. -/
theorem verify_valid_iff (fs : FileSystem) (filepath model_name : String) :
    ((verify_model_file fs filepath model_name).valid = true ↔
      ∃ f keys, fs filepath = some f ∧
        f.load = Except.ok (TorchValue.dict keys)) ∧
    ((verify_model_file fs filepath model_name).valid = true →
      (verify_model_file fs filepath model_name).file_exists = true ∧
      (verify_model_file fs filepath model_name).loadable = true) := by
  unfold verify_model_file
  cases hfs : fs filepath with
  | none => simp [missingResult]
  | some f =>
      cases hld : f.load with
      | error e => simp [try_block, hld, loadErrorResult]
      | ok v =>
          cases v with
          | dict keys => simp [try_block, hld]
          | nonDict => simp [try_block, hld]

/-- C3 (witness): on a concrete file system holding a loadable state
dictionary the verdict is `true`, hence exists and loadable are `true`. -/
theorem verify_valid_iff_witness :
    (verify_model_file fsOkDict "resnet18/resnet18_weights.pth"
        "ResNet18").file_exists = true ∧
    (verify_model_file fsOkDict "resnet18/resnet18_weights.pth"
        "ResNet18").loadable = true :=
  (verify_valid_iff fsOkDict "resnet18/resnet18_weights.pth" "ResNet18").2
    (by decide)

/-- C4 (counterexample): for the label "SqueezeNet", which has no
configured size range, the code's classification is the generic
`unusual` warning — the very same verdict an out-of-range size receives
(here MobileNetV2 at 5 MB) — not a distinct "unknown" value. -/
theorem sizeClassification_no_range_counterexample :
    sizeClassification "SqueezeNet" 50 = SizeMsg.unusual ∧
    sizeClassification "MobileNetV2" 5 = SizeMsg.unusual := by
  decide

/-- C4 (amended): for every model name with no configured size range
(i.e. none of the five catalog labels), the classification of lines
43-54 falls through to the generic `unusual` warning, for every size. -/
theorem sizeClassification_no_range_unusual (model_name : String) (fsize : ℚ)
    (h1 : model_name ≠ "VGG16") (h2 : model_name ≠ "ResNet18")
    (h3 : model_name ≠ "MobileNetV2") (h4 : model_name ≠ "AlexNet")
    (h5 : model_name ≠ "ViT") :
    sizeClassification model_name fsize = SizeMsg.unusual := by
  unfold sizeClassification
  rw [if_neg (fun hc => h1 hc.1), if_neg (fun hc => h2 hc.1),
    if_neg (fun hc => h3 hc.1), if_neg (fun hc => h4 hc.1),
    if_neg (fun hc => h5 hc.1)]

/-- C4 (witness): the amended statement at the concrete no-range label
"SqueezeNet" and size 50 MB. -/
theorem sizeClassification_no_range_unusual_witness :
    sizeClassification "SqueezeNet" (50 : ℚ) = SizeMsg.unusual :=
  sizeClassification_no_range_unusual "SqueezeNet" 50 (by decide)
    (by decide) (by decide) (by decide) (by decide)

/-- C5: whenever the file exists and deserializes to a mapping, the
verdict is `true` regardless of the measured size; the size message is
computed (and may be the `unusual` warning) but does not affect
validity. -/
theorem verify_valid_regardless_of_size (fs : FileSystem)
    (filepath model_name : String) (f : FileState) (keys : List String)
    (hfs : fs filepath = some f)
    (hld : f.load = Except.ok (TorchValue.dict keys)) :
    (verify_model_file fs filepath model_name).valid = true ∧
    (verify_model_file fs filepath model_name).size_msg =
      some (sizeClassification model_name (file_size_mb f)) := by
  unfold verify_model_file
  rw [hfs]
  simp [try_block, hld]

/-- C5 (witness): a 5 MB MobileNetV2 state dictionary — outside the
configured (10, 20) range — is still `valid = true`, with the size
message being the `unusual` warning. -/
theorem verify_valid_regardless_of_size_witness :
    (verify_model_file fsSmallDict "mobilenet/mobilenet_weights.pth"
        "MobileNetV2").valid = true ∧
    (verify_model_file fsSmallDict "mobilenet/mobilenet_weights.pth"
        "MobileNetV2").size_msg = some SizeMsg.unusual := by
  have h := verify_valid_regardless_of_size fsSmallDict
    "mobilenet/mobilenet_weights.pth" "MobileNetV2"
    { sizeBytes := 5 * 1024 * 1024,
      load := Except.ok (TorchValue.dict ["features.0.weight"]) }
    ["features.0.weight"] rfl rfl
  refine ⟨h.1, ?_⟩
  rw [h.2]
  simp only [file_size_mb]
  norm_num [sizeClassification]

/-- C6: when the path does not exist, the result has
`file_exists = false`, `loadable = false`, `valid = false`, and none of
the size, parameter-count or sample-name fields are produced (no
deserialization is attempted — lines 17-19 return before the `try`). -/
theorem verify_missing_file (fs : FileSystem) (filepath model_name : String)
    (hfs : fs filepath = none) :
    (verify_model_file fs filepath model_name).file_exists = false ∧
    (verify_model_file fs filepath model_name).loadable = false ∧
    (verify_model_file fs filepath model_name).valid = false ∧
    (verify_model_file fs filepath model_name).size_mb = none ∧
    (verify_model_file fs filepath model_name).parameter_count = none ∧
    (verify_model_file fs filepath model_name).sample_parameter_names
      = none := by
  unfold verify_model_file
  rw [hfs]
  simp [missingResult]

/-- C6 (witness): the statement at a concrete empty file system. -/
theorem verify_missing_file_witness :
    (verify_model_file fsMissing "vgg16/vgg16_weights.pth"
        "VGG16").file_exists = false ∧
    (verify_model_file fsMissing "vgg16/vgg16_weights.pth"
        "VGG16").loadable = false ∧
    (verify_model_file fsMissing "vgg16/vgg16_weights.pth"
        "VGG16").valid = false ∧
    (verify_model_file fsMissing "vgg16/vgg16_weights.pth"
        "VGG16").size_mb = none ∧
    (verify_model_file fsMissing "vgg16/vgg16_weights.pth"
        "VGG16").parameter_count = none ∧
    (verify_model_file fsMissing "vgg16/vgg16_weights.pth"
        "VGG16").sample_parameter_names = none :=
  verify_missing_file fsMissing "vgg16/vgg16_weights.pth" "VGG16" rfl

/-- C7: when the file exists but `torch.load` fails, the result has
`file_exists = true`, `loadable = false`, `valid = false`, and the
failure message is captured in a non-empty diagnostic string (lines
61-63); the failure is recovered inside the function. -/
theorem verify_load_error (fs : FileSystem) (filepath model_name : String)
    (f : FileState) (msg : String)
    (hfs : fs filepath = some f) (hld : f.load = Except.error msg) :
    (verify_model_file fs filepath model_name).file_exists = true ∧
    (verify_model_file fs filepath model_name).loadable = false ∧
    (verify_model_file fs filepath model_name).valid = false ∧
    ∃ d, (verify_model_file fs filepath model_name).diagnostic = some d ∧
      0 < d.length := by
  have hpos : 0 < ("Error loading file: " ++ msg).length := by
    rw [String.length_append]
    have h20 : 0 < ("Error loading file: " : String).length := by decide
    omega
  unfold verify_model_file
  rw [hfs]
  refine ⟨?_, ?_, ?_, "Error loading file: " ++ msg, ?_, hpos⟩ <;>
    simp [try_block, hld, loadErrorResult]

/-- C7 (witness): the statement at a concrete corrupt file. -/
theorem verify_load_error_witness :
    (verify_model_file fsCorrupt "vit/vit_weights.pth"
        "ViT").file_exists = true ∧
    (verify_model_file fsCorrupt "vit/vit_weights.pth"
        "ViT").loadable = false ∧
    (verify_model_file fsCorrupt "vit/vit_weights.pth"
        "ViT").valid = false ∧
    ∃ d, (verify_model_file fsCorrupt "vit/vit_weights.pth"
        "ViT").diagnostic = some d ∧ 0 < d.length :=
  verify_load_error fsCorrupt "vit/vit_weights.pth" "ViT"
    { sizeBytes := 12345, load := Except.error "invalid load key" }
    "invalid load key" rfl rfl

/-- C8: when the file exists and deserializes to a non-mapping value, the
result has `file_exists = true`, `loadable = true`, `valid = false`, the
diagnostic notes the checkpoint is not a state dictionary, and no
parameter count or sample names are produced (lines 57-59). -/
theorem verify_non_dict (fs : FileSystem) (filepath model_name : String)
    (f : FileState)
    (hfs : fs filepath = some f)
    (hld : f.load = Except.ok TorchValue.nonDict) :
    (verify_model_file fs filepath model_name).file_exists = true ∧
    (verify_model_file fs filepath model_name).loadable = true ∧
    (verify_model_file fs filepath model_name).valid = false ∧
    (verify_model_file fs filepath model_name).diagnostic =
      some "Checkpoint is not a state dictionary" ∧
    (verify_model_file fs filepath model_name).parameter_count = none ∧
    (verify_model_file fs filepath model_name).sample_parameter_names
      = none := by
  unfold verify_model_file
  rw [hfs]
  simp [try_block, hld]

/-- C8 (witness): the statement at a concrete file holding a raw
tensor. -/
theorem verify_non_dict_witness :
    (verify_model_file fsTensor "alexnet/alexnet_weights.pth"
        "AlexNet").file_exists = true ∧
    (verify_model_file fsTensor "alexnet/alexnet_weights.pth"
        "AlexNet").loadable = true ∧
    (verify_model_file fsTensor "alexnet/alexnet_weights.pth"
        "AlexNet").valid = false ∧
    (verify_model_file fsTensor "alexnet/alexnet_weights.pth"
        "AlexNet").diagnostic =
      some "Checkpoint is not a state dictionary" ∧
    (verify_model_file fsTensor "alexnet/alexnet_weights.pth"
        "AlexNet").parameter_count = none ∧
    (verify_model_file fsTensor "alexnet/alexnet_weights.pth"
        "AlexNet").sample_parameter_names = none :=
  verify_non_dict fsTensor "alexnet/alexnet_weights.pth" "AlexNet"
    { sizeBytes := 1024, load := Except.ok TorchValue.nonDict } rfl rfl

/-- C9: permuting the sequence of per-file verdicts changes neither
`valid_count` (line 89) nor `total_count` (line 90). -/
theorem aggregate_counts_perm_invariant (l l' : List Bool)
    (h : l.Perm l') :
    valid_count l = valid_count l' ∧ total_count l = total_count l' :=
  ⟨List.Perm.countP_eq _ h, h.length_eq⟩

/-- C9 (witness): the statement at the concrete permutation
`[true, false] ~ [false, true]`. -/
theorem aggregate_counts_perm_invariant_witness :
    valid_count [true, false] = valid_count [false, true] ∧
    total_count [true, false] = total_count [false, true] :=
  aggregate_counts_perm_invariant [true, false] [false, true] (by decide)

/-- C10: the exact size windows of lines 43-52: VGG16 is `appropriate`
iff the size strictly exceeds 400 MB with no upper bound, and the other
four labels use strict two-sided bounds (40, 60), (10, 20), (200, 250)
and (300, 400). -/
theorem sizeClassification_strict_ranges :
    (∀ q : ℚ, sizeClassification "VGG16" q = SizeMsg.appropriate ↔
      400 < q) ∧
    (∀ q : ℚ, sizeClassification "ResNet18" q = SizeMsg.appropriate ↔
      40 < q ∧ q < 60) ∧
    (∀ q : ℚ, sizeClassification "MobileNetV2" q = SizeMsg.appropriate ↔
      10 < q ∧ q < 20) ∧
    (∀ q : ℚ, sizeClassification "AlexNet" q = SizeMsg.appropriate ↔
      200 < q ∧ q < 250) ∧
    (∀ q : ℚ, sizeClassification "ViT" q = SizeMsg.appropriate ↔
      300 < q ∧ q < 400) := by
  refine ⟨fun q => ?_, fun q => ?_, fun q => ?_, fun q => ?_, fun q => ?_⟩ <;>
  · simp only [sizeClassification]
    split_ifs with h1 h2 h3 h4 h5 <;> simp_all

end SiteLenz
